import Mathlib

/-!
Verification of the s3multiframesink element (src/s3multiframesink.rs and
src/put_object_handler.rs): a shallow embedding of the settings, the sink
state machine, the upload path with its retry handler, and the backoff
computation, together with theorems settling the specification claims.

Modelling conventions:
* `u64` counters and `usize` attempt counts are `Nat`; wrapping casts are
  written explicitly with `% 2 ^ 32` where they occur in the source.
* `Duration` values are nanosecond counts (`Nat`); `Duration` division
  truncates at nanosecond resolution exactly as in the source.
* Rust panics (`unreachable!`, `expect`, `unwrap`, `rng.gen_range` with an
  empty range, arithmetic overflow) are modelled as explicit `panicked`
  or `none` outcomes.
* The storage SDK and the random number generator are external
  collaborators: their results (bucket-creation outcome, per-invocation
  put-object outcomes, RNG draws) enter the model as parameters.
-/

/-- The AWS region held in the settings. The source stores a
`rusoto_core::Region`; only its identity matters here, so it is modelled
as its name. -/
structure Region where
  name : String
deriving DecidableEq

/-- Embeds `struct Settings` from src/s3multiframesink.rs: optional bucket,
optional object key root, and a region. -/
structure Settings where
  bucket : Option String
  key : Option String
  region : Region
deriving DecidableEq

/-- Embeds `enum State`: `Stopped`, or `Started` with a frame counter.
The `s3client` field of `Started` is an opaque SDK handle and carries no
information relevant to the claims, so it is not modelled. -/
inductive State where
  | stopped : State
  | started (frame_num : Nat) : State
deriving DecidableEq

/-- Embeds `rusoto_s3::PutObjectRequest` restricted to the fields the
source sets: bucket, key, and body bytes. -/
structure PutObjectRequest where
  bucket : String
  key : String
  body : Option (List Nat)
deriving DecidableEq

/-- Rust string formatting of one field with the format spec `:0>2`
(pad with the character 0 on the left up to width 2). -/
def rustPadZero2 (s : String) : String :=
  String.mk (List.replicate (2 - s.length) '0') ++ s

namespace S3MultiFrameSink

/-- Embeds `S3MultiFrameSink::create_put_object_request`: the object key is
the Rust format string of key root, the literal "/frame", the frame count
padded with the `:0>2` spec, and ".png"; the body is the frame bytes. -/
def create_put_object_request (frame_count : Nat) (vec : List Nat)
    (bucket : String) (key : String) : PutObjectRequest :=
  { bucket := bucket
    key := key ++ "/frame" ++ rustPadZero2 (Nat.repr frame_count) ++ ".png"
    body := some vec }

end S3MultiFrameSink

/-- The key-fragment format in the words of the spec: the sequence number
formatted with at least 2 digits, zero-padded. A decimal numeral has at
least two digits already when the number is at least 10, so a single 0 is
prepended exactly when the number is below 10. -/
def specZeroPad (n : Nat) : String :=
  if n < 10 then "0" ++ Nat.repr n else Nat.repr n

lemma toDigitsCore_length_ge (b : Nat) :
    ∀ (fuel n : Nat) (ds : List Char),
      ds.length + 1 ≤ (Nat.toDigitsCore b (fuel + 1) n ds).length := by
  intro fuel
  induction fuel with
  | zero =>
    intro n ds
    rw [Nat.toDigitsCore]
    split
    · simp
    · rw [Nat.toDigitsCore]
      simp
  | succ fuel ih =>
    intro n ds
    rw [Nat.toDigitsCore]
    split
    · simp
    · have h := ih (n / b) (Nat.digitChar (n % b) :: ds)
      simp only [List.length_cons] at h
      omega

lemma repr_length_ge_two (n : Nat) (h : 10 ≤ n) : 2 ≤ (Nat.repr n).length := by
  obtain ⟨m, rfl⟩ : ∃ m, n = m + 1 := ⟨n - 1, by omega⟩
  show 2 ≤ (Nat.toDigits 10 (m + 1)).asString.length
  have hne : ¬ (m + 1) / 10 = 0 := by
    have : 1 ≤ (m + 1) / 10 := (Nat.one_le_div_iff (by norm_num)).mpr h
    omega
  have : (Nat.toDigits 10 (m + 1)).length =
      (Nat.toDigitsCore 10 (m + 1) ((m + 1) / 10)
        [Nat.digitChar ((m + 1) % 10)]).length := by
    simp only [Nat.toDigits, Nat.toDigitsCore]
    rw [if_neg hne]
  have hlen : 2 ≤ (Nat.toDigits 10 (m + 1)).length := by
    rw [this]
    obtain ⟨k, hk⟩ : ∃ k, m = k + 1 := ⟨m - 1, by omega⟩
    calc (2 : Nat) = [Nat.digitChar ((m + 1) % 10)].length + 1 := by simp
    _ ≤ _ := by rw [hk]; exact toDigitsCore_length_ge 10 (k + 1) _ _
  simpa [List.asString, String.length] using hlen

lemma string_nil_append (s : String) : String.mk [] ++ s = s := by
  cases s
  rfl

lemma rustPadZero2_repr (n : Nat) : rustPadZero2 (Nat.repr n) = specZeroPad n := by
  by_cases h : n < 10
  · interval_cases n <;> decide
  · have h2 : 2 ≤ (Nat.repr n).length := repr_length_ge_two n (by omega)
    unfold rustPadZero2 specZeroPad
    rw [if_neg h, Nat.sub_eq_zero_of_le h2]
    exact string_nil_append (Nat.repr n)

/-- C2: for every frame with sequence number at least 1 and every key root,
the object key built for the upload request is exactly the key root, then
"/frame", then the sequence number zero-padded to at least 2 digits, then
".png"; in particular for key root "demo" and frames 1, 2, 12 the keys are
"demo/frame01.png", "demo/frame02.png" and "demo/frame12.png". -/
theorem create_put_object_request_key_format (n : Nat) (vec : List Nat)
    (b p : String) (h : 1 ≤ n) :
    (S3MultiFrameSink.create_put_object_request n vec b p).key =
      p ++ "/frame" ++ specZeroPad n ++ ".png" ∧
    (S3MultiFrameSink.create_put_object_request 1 vec b "demo").key =
      "demo/frame01.png" ∧
    (S3MultiFrameSink.create_put_object_request 2 vec b "demo").key =
      "demo/frame02.png" ∧
    (S3MultiFrameSink.create_put_object_request 12 vec b "demo").key =
      "demo/frame12.png" := by
  refine ⟨?_, rfl, rfl, rfl⟩
  show p ++ "/frame" ++ rustPadZero2 (Nat.repr n) ++ ".png" =
    p ++ "/frame" ++ specZeroPad n ++ ".png"
  rw [rustPadZero2_repr]

/-- Witness for C2 at the concrete frame number 12. -/
theorem create_put_object_request_key_format_witness :
    (1 : Nat) ≤ 12 ∧
    ((S3MultiFrameSink.create_put_object_request 12 [] "bkt" "demo").key =
        "demo" ++ "/frame" ++ specZeroPad 12 ++ ".png" ∧
      (S3MultiFrameSink.create_put_object_request 1 [] "bkt" "demo").key =
        "demo/frame01.png" ∧
      (S3MultiFrameSink.create_put_object_request 2 [] "bkt" "demo").key =
        "demo/frame02.png" ∧
      (S3MultiFrameSink.create_put_object_request 12 [] "bkt" "demo").key =
        "demo/frame12.png") :=
  ⟨by decide, create_put_object_request_key_format 12 [] "bkt" "demo" (by decide)⟩

/-- Embeds `struct PutObjectHandler` from src/put_object_handler.rs and
src/s3multiframesink.rs. Durations are in nanoseconds. The `rng` field is
an entropy-seeded generator; its draws enter the model as parameters of
`jitter` and `handle`. -/
structure PutObjectHandler where
  max_attempts : Nat
  frame_num : Nat
  jitter_max : Nat
  jitter_base : Nat

/-- Embeds `PutObjectHandler::new`: retry budget and frame number as given,
maximum jitter 32 seconds, base jitter 5 milliseconds. -/
def PutObjectHandler.new (max_attempts frame_num : Nat) : PutObjectHandler :=
  { max_attempts := max_attempts
    frame_num := frame_num
    jitter_max := 32 * 10 ^ 9
    jitter_base := 5 * 10 ^ 6 }

/-- Embeds `PutObjectHandler::jitter`. The source computes
`jitter_max.min(jitter_base.mul(2u32.pow(attempt as u32)))`, then
`temp / 2 + Duration::from_millis(rng.gen_range(0, temp.div(2).as_millis()))`.
The cast `attempt as u32` truncates modulo 2 to the 32, and `u32::pow`
wraps modulo 2 to the 32 (it panics instead under debug assertions).
`gen_range(0, hi)` draws a value strictly below `hi` and panics when
`hi = 0`; the draw is the parameter `r`, and `none` models a panic or an
impossible draw. `as_millis` truncates to whole milliseconds. -/
def PutObjectHandler.jitter (h : PutObjectHandler) (attempt r : Nat) : Option Nat :=
  let kpow := 2 ^ (attempt % 2 ^ 32) % 2 ^ 32
  let temp := min h.jitter_max (h.jitter_base * kpow)
  let hi := temp / 2 / 10 ^ 6
  if r < hi then some (temp / 2 + r * 10 ^ 6) else none

/-- Embeds `futures_retry::RetryPolicy` as used by the handler: wait for an
optional duration (none when the jitter computation panics) then retry, or
forward the error. Errors are modelled as opaque numeric codes. -/
inductive RetryPolicy where
  | waitRetry (d : Option Nat) : RetryPolicy
  | forwardError (e : Nat) : RetryPolicy
deriving DecidableEq

/-- The diagnostic record printed by `PutObjectHandler::handle`: either the
exhaustion message carrying the frame number and the error, or the
per-attempt failure message carrying frame number, attempt and budget. -/
inductive Diag where
  | exhausted (frame_num : Nat) (e : Nat) : Diag
  | attemptFailed (frame_num attempt max_attempts : Nat) : Diag
deriving DecidableEq

/-- Embeds `ErrorHandler::handle` for `PutObjectHandler`: when the attempt
count exceeds `max_attempts`, print the exhaustion record and forward the
error; otherwise print the attempt-failed record and wait for
`jitter(attempt)` before retrying. `r` is the RNG draw consumed by
`jitter`. -/
def PutObjectHandler.handle (h : PutObjectHandler) (attempt : Nat) (e : Nat)
    (r : Nat) : RetryPolicy × Diag :=
  if h.max_attempts < attempt then
    (.forwardError e, .exhausted h.frame_num e)
  else
    (.waitRetry (h.jitter attempt r), .attemptFailed h.frame_num attempt h.max_attempts)

/-- What one run of the retry driver does: terminate with a result after
some number of operation invocations, die in a panic raised by the jitter
computation inside the handler (counting the invocations made up to that
point), or hit the step bound of the model. -/
inductive DriverOutcome where
  | result (r : Except Nat Unit) (invocations : Nat) : DriverOutcome
  | panicked (invocations : Nat) : DriverOutcome
  | outOfFuel : DriverOutcome

/-- Modelled from the spec: the Retry Driver loop, implemented in the
external `futures_retry::FutureRetry` crate and absent from src/. The
operation is invoked; on success the result is returned at once; on
failure the handler is consulted with an attempt count that starts at 1
and grows by 1 per handled failure, retrying on `waitRetry` and surfacing
the error on `forwardError`. The handler computes the wait by calling the
jitter computation; when that computation panics (the `none` duration of
`PutObjectHandler.jitter`) the whole run dies, which the loop reports as
`panicked`. `op i` is the outcome of invocation number `i` (starting at
0), `draw a` the RNG value consumed at attempt `a`, and `fuel` a step
bound of the model. -/
def retryLoop (h : PutObjectHandler) (op : Nat → Except Nat Unit)
    (draw : Nat → Nat) : Nat → Nat → Nat → DriverOutcome
  | 0, _, _ => .outOfFuel
  | fuel + 1, attempt, inv =>
    match op inv with
    | .ok t => .result (.ok t) (inv + 1)
    | .error e =>
      match (h.handle attempt e (draw attempt)).1 with
      | .forwardError e2 => .result (.error e2) (inv + 1)
      | .waitRetry none => .panicked (inv + 1)
      | .waitRetry (some _) => retryLoop h op draw fuel (attempt + 1) (inv + 1)

/-- True of a draw function when every RNG value consumed at attempts 1
through `N` lies inside the `gen_range` bound of the jitter computation,
so that no draw is rejected — which is how the real generator behaves
whenever the range is nonempty. -/
def validDraws (N f : Nat) (draw : Nat → Nat) : Bool :=
  (List.range N).all
    (fun a => ((PutObjectHandler.new N f).jitter (a + 1) (draw (a + 1))).isSome)

lemma retryLoop_always_fails (N f : Nat) (e draw : Nat → Nat)
    (hd : ∀ a, 1 ≤ a → a ≤ N →
      ((PutObjectHandler.new N f).jitter a (draw a)).isSome = true) :
    ∀ (k a i : Nat), a + k = N + 1 → 1 ≤ a →
      retryLoop (PutObjectHandler.new N f) (fun j => Except.error (e j)) draw
        (k + 1) a i = .result (Except.error (e (i + k))) (i + k + 1) := by
  intro k
  induction k with
  | zero =>
    intro a i ha ha1
    rw [retryLoop]
    simp only [PutObjectHandler.handle]
    rw [if_pos (by simp only [PutObjectHandler.new]; omega :
      (PutObjectHandler.new N f).max_attempts < a)]
    rfl
  | succ k ih =>
    intro a i ha ha1
    rw [retryLoop]
    simp only [PutObjectHandler.handle]
    rw [if_neg (by simp only [PutObjectHandler.new]; omega :
      ¬ (PutObjectHandler.new N f).max_attempts < a)]
    obtain ⟨w, hw⟩ := Option.isSome_iff_exists.mp (hd a ha1 (by omega))
    rw [hw]
    have h2 : i + 1 + k = i + (k + 1) := by omega
    have h := ih (a + 1) (i + 1) (by omega) (by omega)
    rw [h2] at h
    exact h

/-- C1 counterexample: with the retry budget 32 and an operation failing on
every invocation (with draws that are all in range while the range is
nonempty), the driver does not perform 33 invocations and does not surface
the last error: at attempt 32 the jitter computation inside the handler
panics (u32 overflow, or the wrapped zero range of `gen_range`), killing
the run after 32 invocations. -/
theorem retry_driver_budget32_panics_cex :
    retryLoop (PutObjectHandler.new 32 1) (fun j => Except.error j)
      (fun _ => 0) 33 1 0 = .panicked 32 ∧
    retryLoop (PutObjectHandler.new 32 1) (fun j => Except.error j)
      (fun _ => 0) 33 1 0 ≠ .result (Except.error 32) 33 := by
  have h : retryLoop (PutObjectHandler.new 32 1) (fun j => Except.error j)
      (fun _ => 0) 33 1 0 = .panicked 32 := by rfl
  refine ⟨h, ?_⟩
  rw [h]
  intro hc
  exact DriverOutcome.noConfusion hc

/-- C1 (amended): for every retry budget `N ≤ 31` (so the backoff
computation never overflows within the attempts made), an operation that
fails on every invocation, and RNG draws that stay inside the `gen_range`
bounds, the retry driver performs exactly `N + 1` invocations (1 initial
plus `N` retries) and surfaces the last error, the exhaustion diagnostic
carrying the frame number; the handler forwards the error exactly when the
attempt count exceeds `max_attempts` and schedules a retry exactly when it
does not. -/
theorem retry_driver_exhausts_with_valid_draws (N f : Nat) (e draw : Nat → Nat)
    (_hN : N ≤ 31) (hdraw : validDraws N f draw = true) :
    retryLoop (PutObjectHandler.new N f) (fun j => Except.error (e j)) draw
      (N + 1) 1 0 = .result (Except.error (e N)) (N + 1) ∧
    (∀ (a x r : Nat),
      ((PutObjectHandler.new N f).handle a x r).1 = RetryPolicy.forwardError x ↔
        N < a) ∧
    (∀ (a x r : Nat),
      (∃ d, ((PutObjectHandler.new N f).handle a x r).1 = RetryPolicy.waitRetry d) ↔
        a ≤ N) ∧
    (∀ (a x r : Nat), N < a →
      ((PutObjectHandler.new N f).handle a x r).2 = Diag.exhausted f x) := by
  have hd : ∀ a, 1 ≤ a → a ≤ N →
      ((PutObjectHandler.new N f).jitter a (draw a)).isSome = true := by
    intro a h1 h2
    have hx := List.all_eq_true.mp hdraw (a - 1) (List.mem_range.mpr (by omega))
    have ha : a - 1 + 1 = a := by omega
    rw [ha] at hx
    exact hx
  refine ⟨?_, ?_, ?_, ?_⟩
  · have h := retryLoop_always_fails N f e draw hd N 1 0 (by omega) (by omega)
    simpa using h
  · intro a x r
    simp only [PutObjectHandler.handle, PutObjectHandler.new]
    split
    · simp
      omega
    · simp
      omega
  · intro a x r
    simp only [PutObjectHandler.handle, PutObjectHandler.new]
    split
    · simp
      omega
    · simp
      omega
  · intro a x r hlt
    simp only [PutObjectHandler.handle, PutObjectHandler.new]
    rw [if_pos hlt]

/-- Witness for C1 with budget 2, the always-failing operation whose error
at invocation `j` is the code `j`, and the all-zero draws: the driver ends
after exactly 3 invocations surfacing error code 2. -/
theorem retry_driver_exhausts_with_valid_draws_witness :
    (2 : Nat) ≤ 31 ∧ validDraws 2 1 (fun _ => 0) = true ∧
    retryLoop (PutObjectHandler.new 2 1) (fun j => Except.error j)
      (fun _ => 0) 3 1 0 = .result (Except.error 2) 3 :=
  ⟨by decide, by decide,
    (retry_driver_exhausts_with_valid_draws 2 1 (fun j => j) (fun _ => 0)
      (by decide) (by decide)).1⟩

/-- The capped exponential wait of the spec, in nanoseconds: the minimum of
the 32 second maximum wait and the 5 millisecond base scaled by 2 to the
attempt count, with the true (non-wrapping) power. -/
def cappedNs (attempt : Nat) : Nat :=
  min (32 * 10 ^ 9) (5 * 10 ^ 6 * 2 ^ attempt)

/-- C3 (amended): every wait the jitter computation actually returns is at
most the 32 second maximum, and for every attempt up to 31 (where the u32
power does not overflow) the wait lies in the half-open interval from
`cappedNs attempt / 2` (inclusive) to `cappedNs attempt` (exclusive). -/
theorem jitter_in_range (m f a r w : Nat)
    (h : (PutObjectHandler.new m f).jitter a r = some w) :
    w ≤ 32 * 10 ^ 9 ∧ (a ≤ 31 → cappedNs a / 2 ≤ w ∧ w < cappedNs a) := by
  unfold PutObjectHandler.jitter PutObjectHandler.new at h
  simp only at h
  set kpow := 2 ^ (a % 2 ^ 32) % 2 ^ 32 with hk
  set temp := min (32 * 10 ^ 9) (5 * 10 ^ 6 * kpow) with htemp
  by_cases hr : r < temp / 2 / 10 ^ 6
  · rw [if_pos hr] at h
    have hw : w = temp / 2 + r * 10 ^ 6 := by
      exact (Option.some.injEq _ _).mp h.symm
    have hA : (r + 1) * 10 ^ 6 ≤ temp / 2 := by
      calc (r + 1) * 10 ^ 6 ≤ temp / 2 / 10 ^ 6 * 10 ^ 6 := by
            exact Nat.mul_le_mul_right _ hr
      _ ≤ temp / 2 := Nat.div_mul_le_self _ _
    have hB : temp / 2 * 2 ≤ temp := Nat.div_mul_le_self _ _
    have hwt : w < temp := by
      have := hA
      omega
    have htle : temp ≤ 32 * 10 ^ 9 := min_le_left _ _
    refine ⟨by omega, ?_⟩
    intro ha31
    have hmod : a % 2 ^ 32 = a := Nat.mod_eq_of_lt (by omega)
    have hpow : 2 ^ a < 2 ^ 32 :=
      Nat.pow_lt_pow_right (by omega) (by omega)
    have hkeq : kpow = 2 ^ a := by
      rw [hk, hmod, Nat.mod_eq_of_lt hpow]
    have hce : temp = cappedNs a := by
      rw [htemp, hkeq, cappedNs]
    rw [← hce]
    exact ⟨by omega, hwt⟩
  · rw [if_neg hr] at h
    exact absurd h (by simp)

/-- Witness for C3 at attempt 1 with draw 0: the returned wait is exactly 5
milliseconds. -/
theorem jitter_in_range_witness :
    (PutObjectHandler.new 5 1).jitter 1 0 = some 5000000 ∧
    (5000000 ≤ 32 * 10 ^ 9 ∧
      (1 ≤ 31 → cappedNs 1 / 2 ≤ 5000000 ∧ 5000000 < cappedNs 1)) :=
  ⟨by decide, jitter_in_range 5 1 1 0 5000000 (by decide)⟩

/-- C3 counterexample: at the concrete attempt count 2 to the 32 (a value a
64-bit usize represents), the `as u32` cast truncates the exponent to 0, so
the code returns the wait 2500000 nanoseconds (2.5 ms) drawn for r = 0,
which is strictly below half the capped wait 32 seconds demanded by the
claim for that attempt. -/
theorem jitter_truncation_below_range :
    (PutObjectHandler.new 5 1).jitter (2 ^ 32) 0 = some 2500000 ∧
    2500000 < cappedNs (2 ^ 32) / 2 := by
  constructor
  · have hk : 2 ^ (2 ^ 32 % 2 ^ 32) % 2 ^ 32 = 1 := by
      rw [Nat.mod_self]
      norm_num
    unfold PutObjectHandler.jitter PutObjectHandler.new
    simp only [hk]
    norm_num
  · have h13 : (2 : Nat) ^ 13 ≤ 2 ^ (2 ^ 32) :=
      Nat.pow_le_pow_right (by norm_num) (by norm_num)
    have h2 : (32 * 10 ^ 9 : Nat) ≤ 5 * 10 ^ 6 * 2 ^ (2 ^ 32) :=
      le_trans (by norm_num) (Nat.mul_le_mul_left (5 * 10 ^ 6) h13)
    have hcap : cappedNs (2 ^ 32) = 32 * 10 ^ 9 := min_eq_left h2
    rw [hcap]
    norm_num

/-- C4: at attempt 32 the exponential term overflows u32 instead of
saturating: under debug assertions `2u32.pow(32)` panics outright, and in
release mode it wraps to 0, making the capped wait zero so that
`gen_range(0, 0)` panics. Either way no wait is ever produced, for any RNG
draw. -/
theorem jitter_attempt32_panics (r : Nat) :
    (PutObjectHandler.new 5 1).jitter 32 r = none := by
  unfold PutObjectHandler.jitter PutObjectHandler.new
  simp

/-- Outcome of a `start` or bucket-provisioning call: success, an error
message returned to the caller (`gst_error_msg`), or a Rust panic with its
message. -/
inductive StartResult where
  | ok : StartResult
  | errored (msg : String) : StartResult
  | panicked (msg : String) : StartResult
deriving DecidableEq

/-- True exactly on the `errored` outcome: the call returned an error value
to its caller rather than succeeding or panicking. -/
def StartResult.isErrored : StartResult → Bool
  | .errored _ => true
  | _ => false

/-- The result of the `create_bucket` call made by the storage SDK, an
external collaborator: success, the service error variant
`BucketAlreadyOwnedByYou`, or any other error with its display text. -/
inductive CreateBucketOutcome where
  | ok : CreateBucketOutcome
  | alreadyOwnedByYou : CreateBucketOutcome
  | otherError (msg : String) : CreateBucketOutcome
deriving DecidableEq

namespace S3MultiFrameSink

/-- Embeds `S3MultiFrameSink::create_bucket_if_extant`: the bucket setting
is read with `expect` (a panic when it is unset), the create-bucket call is
made, a `BucketAlreadyOwnedByYou` service error is treated as success, and
any other error is returned as a settings resource error carrying the
display text of the error. -/
def create_bucket_if_extant (settings : Settings)
    (outcome : CreateBucketOutcome) : StartResult :=
  match settings.bucket with
  | none => .panicked "Bucket should be set by start time"
  | some _ =>
    match outcome with
    | .ok => .ok
    | .alreadyOwnedByYou => .ok
    | .otherError msg => .errored msg

/-- Embeds `BaseSinkImpl::start`: when the state is already `Started` the
source executes the `unreachable!` macro, a panic with the message below,
leaving the state value untouched. Otherwise a client is built and
`create_bucket_if_extant` runs; on its success the state becomes
`Started` with `frame_num = 0`, and on its error or panic the state stays
`Stopped`. -/
def start (settings : Settings) (st : State)
    (outcome : CreateBucketOutcome) : StartResult × State :=
  match st with
  | .started n => (.panicked "S3MultiFrameSink already started", .started n)
  | .stopped =>
    match create_bucket_if_extant settings outcome with
    | .ok => (.ok, .started 0)
    | .errored msg => (.errored msg, .stopped)
    | .panicked msg => (.panicked msg, .stopped)

end S3MultiFrameSink

/-- C5 counterexample: calling `start` on a sink already in the `Started`
state (here with frame number 7) panics with the `unreachable!` message; it
does not return an error value of any kind, contradicting the claim that
it fails by returning an `AlreadyStarted` error rather than panicking. -/
theorem start_already_started_cex :
    (S3MultiFrameSink.start ⟨some "bucket", some "demo", ⟨"us-east-1"⟩⟩
        (.started 7) .ok).1 = .panicked "S3MultiFrameSink already started" ∧
    ((S3MultiFrameSink.start ⟨some "bucket", some "demo", ⟨"us-east-1"⟩⟩
        (.started 7) .ok).1.isErrored = false) ∧
    (S3MultiFrameSink.start ⟨some "bucket", some "demo", ⟨"us-east-1"⟩⟩
        (.started 7) .ok).2 = .started 7 := by
  refine ⟨rfl, rfl, rfl⟩

/-- C5 (amended): calling `start` while the state is `Started` panics via
the `unreachable!` macro with the message "S3MultiFrameSink already
started", for every settings value and bucket-call outcome, and the state
value is left unchanged (still `Started` with the same frame number); no
error value is returned. -/
theorem start_on_started_panics (settings : Settings) (n : Nat)
    (outcome : CreateBucketOutcome) :
    S3MultiFrameSink.start settings (.started n) outcome =
      (.panicked "S3MultiFrameSink already started", .started n) := rfl

/-- C7: from the `Stopped` state with the bucket setting present, `start`
succeeds and transitions to `Started` with frame number 0 exactly when the
create-bucket call succeeds or fails with the bucket-already-owned-by-you
service error; on any other provisioning failure `start` returns that
error and the state remains `Stopped`. -/
theorem start_provisioning (settings : Settings) (b : String) (msg : String)
    (outcome : CreateBucketOutcome) (hb : settings.bucket = some b) :
    (outcome = .ok →
      S3MultiFrameSink.start settings .stopped outcome = (.ok, .started 0)) ∧
    (outcome = .alreadyOwnedByYou →
      S3MultiFrameSink.start settings .stopped outcome = (.ok, .started 0)) ∧
    (outcome = .otherError msg →
      S3MultiFrameSink.start settings .stopped outcome =
        (.errored msg, .stopped)) ∧
    (S3MultiFrameSink.start settings .stopped outcome = (.ok, .started 0) →
      outcome = .ok ∨ outcome = .alreadyOwnedByYou) := by
  refine ⟨?_, ?_, ?_, ?_⟩
  · rintro rfl
    simp [S3MultiFrameSink.start, S3MultiFrameSink.create_bucket_if_extant, hb]
  · rintro rfl
    simp [S3MultiFrameSink.start, S3MultiFrameSink.create_bucket_if_extant, hb]
  · rintro rfl
    simp [S3MultiFrameSink.start, S3MultiFrameSink.create_bucket_if_extant, hb]
  · intro h
    cases outcome with
    | ok => exact Or.inl rfl
    | alreadyOwnedByYou => exact Or.inr rfl
    | otherError m =>
      exfalso
      simp [S3MultiFrameSink.start,
        S3MultiFrameSink.create_bucket_if_extant, hb] at h

/-- Witness for C7 with the bucket set and the already-owned-by-you
outcome. -/
theorem start_provisioning_witness :
    (⟨some "bucket", some "demo", ⟨"us-east-1"⟩⟩ : Settings).bucket =
      some "bucket" ∧
    ((CreateBucketOutcome.alreadyOwnedByYou = .ok →
        S3MultiFrameSink.start ⟨some "bucket", some "demo", ⟨"us-east-1"⟩⟩
          .stopped .alreadyOwnedByYou = (.ok, .started 0)) ∧
      (CreateBucketOutcome.alreadyOwnedByYou = .alreadyOwnedByYou →
        S3MultiFrameSink.start ⟨some "bucket", some "demo", ⟨"us-east-1"⟩⟩
          .stopped .alreadyOwnedByYou = (.ok, .started 0)) ∧
      (CreateBucketOutcome.alreadyOwnedByYou = .otherError "boom" →
        S3MultiFrameSink.start ⟨some "bucket", some "demo", ⟨"us-east-1"⟩⟩
          .stopped .alreadyOwnedByYou = (.errored "boom", .stopped)) ∧
      (S3MultiFrameSink.start ⟨some "bucket", some "demo", ⟨"us-east-1"⟩⟩
          .stopped .alreadyOwnedByYou = (.ok, .started 0) →
        CreateBucketOutcome.alreadyOwnedByYou = .ok ∨
          CreateBucketOutcome.alreadyOwnedByYou = .alreadyOwnedByYou)) :=
  ⟨rfl, start_provisioning ⟨some "bucket", some "demo", ⟨"us-east-1"⟩⟩
    "bucket" "boom" .alreadyOwnedByYou rfl⟩

/-- Outcome of a `render` call: flow success, the flow error returned to
the pipeline, or a Rust panic with its message. -/
inductive RenderResult where
  | ok : RenderResult
  | flowError : RenderResult
  | panicked (msg : String) : RenderResult
deriving DecidableEq

/-- Ghost trace of the observable steps inside one `render` call, in
execution order: the buffer map succeeding or failing, the byte copy out
of the mapped buffer, the increment of `frame_num`, and the dispatch of
the retried upload with its request. -/
inductive UploadEvent where
  | mapOk : UploadEvent
  | mapFail : UploadEvent
  | copy : UploadEvent
  | increment : UploadEvent
  | upload (req : PutObjectRequest) : UploadEvent
deriving DecidableEq

/-- True exactly on the byte-copy event. -/
def UploadEvent.isCopy : UploadEvent → Bool
  | .copy => true
  | _ => false

/-- True exactly on the frame-number increment event. -/
def UploadEvent.isIncrement : UploadEvent → Bool
  | .increment => true
  | _ => false

namespace S3MultiFrameSink

/-- Embeds `S3MultiFrameSink::upload_image_frame`: `frame_num` is first
incremented, then the bucket and key settings are read with `unwrap` (a
panic when either is unset), the put-object request is built from the
incremented frame number, and the retried upload runs; its success maps to
flow success and its exhaustion to the flow error. `putOutcome` is the
final outcome of the retried put-object call (the `block_on(FutureRetry)`
boundary modelled by `retryLoop`). Returns the result, the new frame
number, and the trace of steps performed. -/
def upload_image_frame (settings : Settings) (frame_num : Nat)
    (vec : List Nat) (putOutcome : Except Nat Unit) :
    RenderResult × Nat × List UploadEvent :=
  let fn := frame_num + 1
  match settings.bucket with
  | none => (.panicked "called Option::unwrap on a None value", fn, [.increment])
  | some bucket =>
    match settings.key with
    | none => (.panicked "called Option::unwrap on a None value", fn, [.increment])
    | some key =>
      let req := create_put_object_request fn vec bucket key
      match putOutcome with
      | .ok _ => (.ok, fn, [.increment, .upload req])
      | .error _ => (.flowError, fn, [.increment, .upload req])

/-- Embeds `BaseSinkImpl::render`: a `Stopped` sink posts an element error
and returns the flow error; otherwise the buffer is mapped readable
(`mapResult` is `none` when the map fails, in which case the flow error is
returned at once), the mapped bytes are copied into an owned vector, and
`upload_image_frame` runs on the copied bytes. -/
def render (settings : Settings) (st : State) (mapResult : Option (List Nat))
    (putOutcome : Except Nat Unit) : RenderResult × State × List UploadEvent :=
  match st with
  | .stopped => (.flowError, .stopped, [])
  | .started n =>
    match mapResult with
    | none => (.flowError, .started n, [.mapFail])
    | some vec =>
      let r := upload_image_frame settings n vec putOutcome
      (r.1, .started r.2.1, .mapOk :: .copy :: r.2.2)

end S3MultiFrameSink

/-- C6 counterexample: in a concrete successful `render` call (Started with
frame number 0, a one-byte buffer, upload succeeding) the trace of steps
puts the byte copy strictly before the `frame_num` increment, contradicting
the claim that `frame_num` is incremented before the bytes are copied. -/
theorem render_increment_after_copy_cex :
    (S3MultiFrameSink.render ⟨some "bucket", some "demo", ⟨"us-east-1"⟩⟩
        (.started 0) (some [7]) (.ok ())).2.2 =
      [.mapOk, .copy, .increment,
        .upload (S3MultiFrameSink.create_put_object_request 1 [7] "bucket" "demo")] ∧
    List.findIdx UploadEvent.isCopy
        (S3MultiFrameSink.render ⟨some "bucket", some "demo", ⟨"us-east-1"⟩⟩
          (.started 0) (some [7]) (.ok ())).2.2 <
      List.findIdx UploadEvent.isIncrement
        (S3MultiFrameSink.render ⟨some "bucket", some "demo", ⟨"us-east-1"⟩⟩
          (.started 0) (some [7]) (.ok ())).2.2 := by
  refine ⟨rfl, ?_⟩
  show (1 : Nat) < 2
  omega

/-- C6 (amended): in every `render` call on a Started sink whose buffer map
succeeds and whose bucket and key settings are present, `frame_num` is
incremented after the byte copy but before the upload is dispatched; the
new state carries `frame_num + 1` and the uploaded key is built from
`frame_num + 1`, whether the retried upload succeeds or fails, so
sequence numbers assigned by consecutive `render` calls are strictly
increasing by 1 starting at 1 and no key is reused. -/
theorem render_copy_then_increment (settings : Settings) (n : Nat)
    (vec : List Nat) (b k : String) (putOutcome : Except Nat Unit)
    (hb : settings.bucket = some b) (hk : settings.key = some k) :
    S3MultiFrameSink.render settings (.started n) (some vec) putOutcome =
      ((match putOutcome with
        | .ok _ => RenderResult.ok
        | .error _ => RenderResult.flowError),
       .started (n + 1),
       [.mapOk, .copy, .increment,
        .upload (S3MultiFrameSink.create_put_object_request (n + 1) vec b k)]) := by
  cases putOutcome with
  | ok t =>
    simp [S3MultiFrameSink.render, S3MultiFrameSink.upload_image_frame, hb, hk]
  | error e =>
    simp [S3MultiFrameSink.render, S3MultiFrameSink.upload_image_frame, hb, hk]

/-- Witness for C6 at frame number 4 with a failing upload: the state
advances to 5 and the key is built from 5. -/
theorem render_copy_then_increment_witness :
    (⟨some "bucket", some "demo", ⟨"us-east-1"⟩⟩ : Settings).bucket =
      some "bucket" ∧
    (⟨some "bucket", some "demo", ⟨"us-east-1"⟩⟩ : Settings).key =
      some "demo" ∧
    S3MultiFrameSink.render ⟨some "bucket", some "demo", ⟨"us-east-1"⟩⟩
        (.started 4) (some [7]) (.error 3) =
      ((match (Except.error 3 : Except Nat Unit) with
        | .ok _ => RenderResult.ok
        | .error _ => RenderResult.flowError),
       .started 5,
       [.mapOk, .copy, .increment,
        .upload (S3MultiFrameSink.create_put_object_request 5 [7] "bucket" "demo")]) :=
  ⟨rfl, rfl, render_copy_then_increment
    ⟨some "bucket", some "demo", ⟨"us-east-1"⟩⟩ 4 [7] "bucket" "demo"
    (.error 3) rfl rfl⟩

/-- C8 counterexample: a `render` call on a Started sink whose key setting
is missing panics on the `unwrap` of the key (after incrementing
`frame_num`); it does not return a flow error, contradicting the claim. -/
theorem render_missing_key_cex :
    (S3MultiFrameSink.render ⟨some "bucket", none, ⟨"us-east-1"⟩⟩
        (.started 0) (some [7]) (.ok ())).1 =
      .panicked "called Option::unwrap on a None value" ∧
    (S3MultiFrameSink.render ⟨some "bucket", none, ⟨"us-east-1"⟩⟩
        (.started 0) (some [7]) (.ok ())).1 ≠ .flowError := by
  exact ⟨rfl, by decide⟩

/-- C8 (amended): when `render` runs on a Started sink whose settings are
missing the bucket or the key, the call panics on the `unwrap` of the
missing setting instead of returning a flow error; no upload is dispatched,
and `frame_num` has already been incremented when the panic occurs. -/
theorem render_missing_settings_panics (settings : Settings) (n : Nat)
    (vec : List Nat) (putOutcome : Except Nat Unit)
    (h : settings.bucket = none ∨ settings.key = none) :
    S3MultiFrameSink.render settings (.started n) (some vec) putOutcome =
      (.panicked "called Option::unwrap on a None value", .started (n + 1),
        [.mapOk, .copy, .increment]) := by
  rcases h with h | h
  · simp [S3MultiFrameSink.render, S3MultiFrameSink.upload_image_frame, h]
  · cases hb : settings.bucket with
    | none =>
      simp [S3MultiFrameSink.render, S3MultiFrameSink.upload_image_frame, hb]
    | some b =>
      simp [S3MultiFrameSink.render, S3MultiFrameSink.upload_image_frame, hb, h]

/-- Witness for C8 with the key missing. -/
theorem render_missing_settings_panics_witness :
    ((⟨some "bucket", none, ⟨"us-east-1"⟩⟩ : Settings).bucket = none ∨
      (⟨some "bucket", none, ⟨"us-east-1"⟩⟩ : Settings).key = none) ∧
    S3MultiFrameSink.render ⟨some "bucket", none, ⟨"us-east-1"⟩⟩
        (.started 2) (some [7]) (.ok ()) =
      (.panicked "called Option::unwrap on a None value", .started 3,
        [.mapOk, .copy, .increment]) :=
  ⟨Or.inr rfl, render_missing_settings_panics
    ⟨some "bucket", none, ⟨"us-east-1"⟩⟩ 2 [7] (.ok ()) (Or.inr rfl)⟩

/-- C9: when the incoming buffer cannot be mapped readable, `render` on a
Started sink returns the flow error and leaves the state unchanged, so the
failed frame consumes no sequence number; and a subsequent `render` whose
map succeeds (with bucket and key present) assigns the immediately next
sequence number `n + 1`, leaving no gap. -/
theorem render_map_failure_no_gap (settings : Settings) (n : Nat)
    (putOutcome : Except Nat Unit) (vec : List Nat) (b k : String)
    (hb : settings.bucket = some b) (hk : settings.key = some k) :
    S3MultiFrameSink.render settings (.started n) none putOutcome =
      (.flowError, .started n, [.mapFail]) ∧
    (S3MultiFrameSink.render settings (.started n) (some vec)
      putOutcome).2.1 = .started (n + 1) := by
  refine ⟨rfl, ?_⟩
  cases putOutcome with
  | ok t =>
    simp [S3MultiFrameSink.render, S3MultiFrameSink.upload_image_frame, hb, hk]
  | error e =>
    simp [S3MultiFrameSink.render, S3MultiFrameSink.upload_image_frame, hb, hk]

/-- Witness for C9 at frame number 3. -/
theorem render_map_failure_no_gap_witness :
    (S3MultiFrameSink.render ⟨some "bucket", some "demo", ⟨"us-east-1"⟩⟩
        (.started 3) none (.ok ()) =
      (.flowError, .started 3, [.mapFail])) ∧
    (S3MultiFrameSink.render ⟨some "bucket", some "demo", ⟨"us-east-1"⟩⟩
      (.started 3) (some [7]) (.ok ())).2.1 = .started 4 :=
  render_map_failure_no_gap ⟨some "bucket", some "demo", ⟨"us-east-1"⟩⟩ 3
    (.ok ()) [7] "bucket" "demo" rfl rfl

/-- The three installed configuration properties, in the order of the
`PROPERTIES` array. -/
inductive PropId where
  | bucket : PropId
  | key : PropId
  | region : PropId
deriving DecidableEq

/-- Outcome of `set_property`, whose Rust signature returns no value: the
updated settings, or a panic with the message of the failed `expect`. -/
inductive SetPropResult where
  | ok (settings : Settings) : SetPropResult
  | panicked (msg : String) : SetPropResult
deriving DecidableEq

namespace S3MultiFrameSink

/-- Embeds `ObjectImpl::set_property`. The incoming `glib::Value` is
modelled as `Option (Option String)`: the outer `none` is a failed typed
`get` (its `expect` panics with the message of that property), the inner
option is the nullable string payload. For the region property the string
is further required (`expect`, panic when absent) and parsed by
`rusoto_core::Region::from_str` — an external collaborator injected as
`parse` — whose failure is met by `expect("invalid region provided")`,
another panic. No branch returns an error to the caller. -/
def set_property (parse : String → Option Region) (settings : Settings)
    (id : PropId) (value : Option (Option String)) : SetPropResult :=
  match id with
  | .bucket =>
    match value with
    | none => .panicked "type checked upstream"
    | some v => .ok { settings with bucket := v }
  | .key =>
    match value with
    | none => .panicked "Type checked upstream"
    | some v => .ok { settings with key := v }
  | .region =>
    match value with
    | none => .panicked "Type checked upstream"
    | some none => .panicked "region value not provided"
    | some (some s) =>
      match parse s with
      | none => .panicked "invalid region provided"
      | some r => .ok { settings with region := r }

end S3MultiFrameSink

/-- C10: setting the region property to any string the region parser does
not recognize panics with "invalid region provided" instead of reporting
an error to the caller; and every failure path of the setter for each of
the three properties is a panic (failed typed `get`, absent region
string), there being no non-panicking failure path. -/
theorem set_property_invalid_region_panics (parse : String → Option Region)
    (settings : Settings) (s : String) (hp : parse s = none) :
    S3MultiFrameSink.set_property parse settings .region (some (some s)) =
      .panicked "invalid region provided" ∧
    S3MultiFrameSink.set_property parse settings .bucket none =
      .panicked "type checked upstream" ∧
    S3MultiFrameSink.set_property parse settings .key none =
      .panicked "Type checked upstream" ∧
    S3MultiFrameSink.set_property parse settings .region none =
      .panicked "Type checked upstream" ∧
    S3MultiFrameSink.set_property parse settings .region (some none) =
      .panicked "region value not provided" := by
  refine ⟨?_, rfl, rfl, rfl, rfl⟩
  simp [S3MultiFrameSink.set_property, hp]

/-- Witness for C10 with a parser rejecting the string "not-a-region". -/
theorem set_property_invalid_region_panics_witness :
    ((fun _ : String => (none : Option Region)) "not-a-region" = none) ∧
    (S3MultiFrameSink.set_property (fun _ => none)
        ⟨none, none, ⟨"us-east-1"⟩⟩ .region (some (some "not-a-region")) =
      .panicked "invalid region provided" ∧
    S3MultiFrameSink.set_property (fun _ => none)
        ⟨none, none, ⟨"us-east-1"⟩⟩ .bucket none =
      .panicked "type checked upstream" ∧
    S3MultiFrameSink.set_property (fun _ => none)
        ⟨none, none, ⟨"us-east-1"⟩⟩ .key none =
      .panicked "Type checked upstream" ∧
    S3MultiFrameSink.set_property (fun _ => none)
        ⟨none, none, ⟨"us-east-1"⟩⟩ .region none =
      .panicked "Type checked upstream" ∧
    S3MultiFrameSink.set_property (fun _ => none)
        ⟨none, none, ⟨"us-east-1"⟩⟩ .region (some none) =
      .panicked "region value not provided") :=
  ⟨rfl, set_property_invalid_region_panics (fun _ => none)
    ⟨none, none, ⟨"us-east-1"⟩⟩ "not-a-region" rfl⟩
